import Mathlib

/-!
Verification of the sprite-detection repository (monster_detector.py,
screen_capture.py) against its natural-language specification.

The embedding below translates the repository's Python code into Lean.
Pixels and correlation scores are modelled as rationals (the Python code
uses machine floats); `cv2.matchTemplate` and the screen-grab calls are
external library calls and are therefore passed in as explicit function
parameters, so every theorem quantifies over their behaviour.  Python
dicts (insertion-ordered) are modelled as association lists together
with insertion-order-preserving update operations.  Python's stable
`list.sort` is modelled by the stable `List.insertionSort`.
-/

/-- A colour image as produced by a capture backend: `rows` x `cols`
pixels with `channels` colour channels (BGR, possibly plus alpha). -/
structure Img where
  rows : Nat
  cols : Nat
  channels : Nat
  px : Nat → Nat → Nat → ℚ

/-- A single-intensity-channel (grayscale) image, as loaded by
`cv2.imread(..., cv2.IMREAD_GRAYSCALE)` or produced by `cv2.cvtColor`. -/
structure GrayImage where
  rows : Nat
  cols : Nat
  px : Nat → Nat → ℚ

/-- The 2-D score surface returned by `cv2.matchTemplate`:
`score y x` is the match quality of the template's top-left corner
aligned at row `y`, column `x`. -/
structure ScoreSurface where
  rows : Nat
  cols : Nat
  score : Nat → Nat → ℚ

/-- `cv2.cvtColor(frame, cv2.COLOR_BGR2GRAY)` (monster_detector.py line
146): channel order is B, G, R; OpenCV's luma weights 0.299 R + 0.587 G
+ 0.114 B, in exact rational arithmetic. -/
def cvtColorBGR2GRAY (frame : Img) : GrayImage :=
  ⟨frame.rows, frame.cols,
    fun y x => (299 * frame.px y x 2 + 587 * frame.px y x 1 + 114 * frame.px y x 0) / 1000⟩

/-- The external `cv2.matchTemplate(frame_gray, template_gray,
cv2.TM_CCOEFF_NORMED)` call (monster_detector.py line 181): it either
returns a score surface or raises `cv2.error` (the `Except.error`
case), which the caller catches at line 182. -/
abbrev Matcher := GrayImage → GrayImage → Except Unit ScoreSurface

/-- One detected monster, the dictionary appended at monster_detector.py
lines 193-198: `regiao` is `(x, y, largura, altura)`. -/
structure Detection where
  nome : String
  regiao : Nat × Nat × Nat × Nat
  confianca : ℚ
  sprite_usado : String
deriving DecidableEq

/-- Python-dict lookup on an association list (first matching key). -/
def dictGet? {α : Type} (d : List (String × α)) (k : String) : Option α :=
  (d.find? (fun p => p.1 = k)).map (fun p => p.2)

/-- Python-dict assignment `d[k] = v`: replaces the value in place when
the key exists (keeping its position), otherwise appends the new key at
the end, as Python's insertion-ordered dicts do. -/
def dictInsert {α : Type} (k : String) (v : α) : List (String × α) → List (String × α)
  | [] => [(k, v)]
  | (k', v') :: rest =>
      if k' = k then (k', v) :: rest else (k', v') :: dictInsert k v rest

/-- `defaultdict(list)`'s `d[k].append(v)`: appends `v` to the list held
at `k`, creating a singleton entry when `k` is absent. -/
def dictAppend {α : Type} (k : String) (v : α) : List (String × List α) → List (String × List α)
  | [] => [(k, [v])]
  | (k', vs) :: rest =>
      if k' = k then (k', vs ++ [v]) :: rest else (k', vs) :: dictAppend k v rest

/-- `self.templates`: `{"NomeMonstro": [template1, template2, ...]}`. -/
abbrev TemplateDict := List (String × List GrayImage)

/-- `self.template_filenames`: `{"NomeMonstro": [filename1, ...]}`. -/
abbrev FilenameDict := List (String × List String)

/-- The mutable fields of `MonsterDetector` that `carregar_templates`
and `detectar_monstros` read and write. -/
structure DetectorState where
  templates : TemplateDict
  template_filenames : FilenameDict
  cache_loaded : Bool

/-- One entry of `os.listdir(self.pasta_sprites)` together with what the
file system holds for it: whether it is a directory, and for each file
inside it the result of `cv2.imread(..., cv2.IMREAD_GRAYSCALE)` (`none`
when decoding fails). -/
structure FSEntry where
  name : String
  isDir : Bool
  files : List (String × Option GrayImage)

/-- The on-disk sprites folder seen by `carregar_templates`:
`rootIsDir` is `os.path.isdir(self.pasta_sprites)`. -/
structure SpritesFS where
  rootIsDir : Bool
  entries : List FSEntry

/-- `nome_arquivo_sprite.lower().endswith(".png")` (line 87), computed
on the file name's character list: lowercase every character and test
for the `.png` suffix. -/
def isPngName (n : String) : Bool := List.isSuffixOf ".png".data (n.data.map Char.toLower)

/-- The inner loop of `carregar_templates` (lines 86-104): for each file
of a monster directory, keep it when its name ends in `.png`
(case-insensitively) and it decodes; append image and filename to the
two defaultdicts. -/
def loadFiles (nome_base : String) :
    List (String × Option GrayImage) → TemplateDict × FilenameDict → TemplateDict × FilenameDict
  | [], acc => acc
  | f :: rest, acc =>
      loadFiles nome_base rest
        (if isPngName f.1 then
          match f.2 with
          | none => acc
          | some img => (dictAppend nome_base img acc.1, dictAppend nome_base f.1 acc.2)
        else acc)

/-- The outer loop of `carregar_templates` (lines 78-108): directories
only; a non-directory entry is ignored. -/
def loadEntries : List FSEntry → TemplateDict × FilenameDict → TemplateDict × FilenameDict
  | [], acc => acc
  | e :: rest, acc =>
      loadEntries rest (if e.isDir then loadFiles e.name e.files acc else acc)

/-- `MonsterDetector.carregar_templates` (monster_detector.py lines
53-123): cache hit returns unchanged; a missing root folder leaves an
empty, not-loaded state; otherwise the two defaultdicts are rebuilt
from the directory tree and the cache is marked loaded. -/
def carregar_templates (fs : SpritesFS) (s : DetectorState) (forcar_recarregar : Bool) :
    DetectorState :=
  if s.cache_loaded ∧ ¬forcar_recarregar then s
  else if ¬fs.rootIsDir then
    { templates := [], template_filenames := [], cache_loaded := false }
  else
    let loaded := loadEntries fs.entries ([], [])
    { templates := loaded.1, template_filenames := loaded.2, cache_loaded := true }

/-- The images successfully decoded from a monster directory's files:
the PNG-named files whose `cv2.imread` succeeded. -/
def decodedPngs (files : List (String × Option GrayImage)) : List GrayImage :=
  files.filterMap (fun f => if isPngName f.1 then f.2 else none)

/-- The loop of lines 150-154 building `monstros_a_procurar` from
`monstros_alvo`: known names are copied into the fresh dict, unknown
names only produce a warning. -/
def selectLoop (templates : TemplateDict) : List String → TemplateDict → TemplateDict
  | [], acc => acc
  | nome :: rest, acc =>
      selectLoop templates rest
        (match dictGet? templates nome with
        | some ts => dictInsert nome ts acc
        | none => acc)

/-- Lines 148-157: `if monstros_alvo:` is Python truthiness, so both
`None` and the empty list fall through to "search every loaded
monster". -/
def alvoSelect (templates : TemplateDict) (monstros_alvo : Option (List String)) :
    TemplateDict :=
  match monstros_alvo with
  | some alvo => if alvo = [] then templates else selectLoop templates alvo []
  | none => templates

/-- `self.template_filenames[nome_monstro][i]` (line 197). -/
def spriteName (s : DetectorState) (nome : String) (i : Nat) : String :=
  ((dictGet? s.template_filenames nome).getD []).getD i ""

/-- The score-surface cells in the order `zip(*loc[::-1])` walks them
(lines 187-191): row-major, each point as `(x, y)`. -/
def cellsList (rows cols : Nat) : List (Nat × Nat) :=
  (List.range rows).flatMap (fun y => (List.range cols).map (fun x => (x, y)))

/-- The dictionary of lines 193-198 for the cell `c = (x, y)`. -/
def mkDetection (nome fn : String) (res : ScoreSurface) (w h : Nat) (c : Nat × Nat) :
    Detection :=
  ⟨nome, (c.1, c.2, w, h), res.score c.2 c.1, fn⟩

/-- Lines 187-198 for one template: every cell of the score surface
with score >= threshold becomes one detection. -/
def detectionsForTemplate (nome fn : String) (res : ScoreSurface) (w h : Nat) (threshold : ℚ) :
    List Detection :=
  ((cellsList res.rows res.cols).filter (fun c => decide (threshold ≤ res.score c.2 c.1))).map
    (mkDetection nome fn res w h)

/-- The nested template loop of lines 163-198: per monster, per indexed
template; degenerate templates and templates larger than the frame are
skipped, as is a template on which `cv2.matchTemplate` raises. -/
def detections_unsorted (s : DetectorState) (mt : Matcher) (frame_gray : GrayImage)
    (threshold : ℚ) (m : TemplateDict) : List Detection :=
  m.flatMap (fun nt =>
    nt.2.enum.flatMap (fun it =>
      if it.2.rows * it.2.cols = 0 then []
      else if frame_gray.rows < it.2.rows ∨ frame_gray.cols < it.2.cols then []
      else
        match mt frame_gray it.2 with
        | .error _ => []
        | .ok res =>
            detectionsForTemplate nt.1 (spriteName s nt.1 it.1) res it.2.cols it.2.rows
              threshold))

/-- The ordering used by `detections.sort(key=lambda d: d["confianca"],
reverse=True)` (line 206): descending confidence. -/
def confDesc (a b : Detection) : Prop := b.confianca ≤ a.confianca

instance : DecidableRel confDesc :=
  fun a b => inferInstanceAs (Decidable (b.confianca ≤ a.confianca))

instance : IsTotal Detection confDesc := ⟨fun a b => le_total b.confianca a.confianca⟩

instance : IsTrans Detection confDesc := ⟨fun _ _ _ h1 h2 => le_trans h2 h1⟩

/-- `MonsterDetector.detectar_monstros` (monster_detector.py lines
125-211).  The external `cv2.matchTemplate` is the parameter `mt`.
Python's stable `sort(reverse=True)` is modelled by the stable
`insertionSort` under `confDesc`. -/
def detectar_monstros (s : DetectorState) (mt : Matcher) (frame : Img) (threshold : ℚ)
    (monstros_alvo : Option (List String)) : List Detection :=
  if s.templates.isEmpty then []
  else
    let frame_gray := cvtColorBGR2GRAY frame
    let monstros_a_procurar := alvoSelect s.templates monstros_alvo
    if monstros_a_procurar.isEmpty then []
    else
      let detections := detections_unsorted s mt frame_gray threshold monstros_a_procurar
      if detections.isEmpty then detections else detections.insertionSort confDesc

/-- A template the loop of lines 163-198 actually matched: its monster
name, its recorded filename, the score surface `cv2.matchTemplate`
returned for it, and its width and height. -/
structure ProcessedTemplate where
  nome : String
  sprite_usado : String
  res : ScoreSurface
  w : Nat
  h : Nat

/-- The templates `detectar_monstros` processes (reaches line 181 with
a successful match) for a given frame and target dict, in loop order. -/
def processedTemplates (s : DetectorState) (mt : Matcher) (frame_gray : GrayImage)
    (m : TemplateDict) : List ProcessedTemplate :=
  m.flatMap (fun nt =>
    nt.2.enum.flatMap (fun it =>
      if it.2.rows * it.2.cols = 0 then []
      else if frame_gray.rows < it.2.rows ∨ frame_gray.cols < it.2.cols then []
      else
        match mt frame_gray it.2 with
        | .error _ => []
        | .ok res => [⟨nt.1, spriteName s nt.1 it.1, res, it.2.cols, it.2.rows⟩]))

/-- `self.region` in `ScreenCapturerBase.__init__`: the MSS-format
dictionary `{"top", "left", "width", "height"}` (screen_capture.py line
17). -/
structure MSSRegion where
  top : Int
  left : Int
  width : Int
  height : Int
deriving DecidableEq

/-- The `(x, y, largura, altura)` tuple callers may pass to
`capture_frame` as an explicit region override. -/
structure RegionArg where
  x : Int
  y : Int
  w : Int
  h : Int
deriving DecidableEq

/-- The fields of `MSSCapturer`: the base-class state plus `self.sct`
(modelled as whether the mss handle exists). -/
structure MSSCapturerState where
  target_fps : Int
  frame_time : ℚ
  running : Bool
  region : MSSRegion
  sct : Bool

/-- The two ways `self.sct.grab` can fail (screen_capture.py lines
102-108): `mss.exception.ScreenShotError` (a transient miss) or any
other exception (a fatal backend fault). -/
inductive MSSGrabFault
  | screenshotError
  | deviceFault
deriving DecidableEq

/-- The external `self.sct.grab(capture_region)` call plus the
`np.array` conversion: returns a raw (possibly BGRA) image or raises. -/
abbrev MSSGrab := MSSRegion → Except MSSGrabFault Img

/-- `img[:, :, :3]` (screen_capture.py line 100): keep at most the
first three channels. -/
def stripToBGR (img : Img) : Img := { img with channels := min img.channels 3 }

/-- The only way `dxcam.grab` can fail by raising: a DirectX device
problem (screen_capture.py lines 190-196). -/
inductive DXGrabFault
  | deviceFault
deriving DecidableEq

/-- The external `self.camera.grab(region=...)` call on a
`(left, top, right, bottom)` tuple: a frame, `None`, or an exception. -/
abbrev DXGrab := Int × Int × Int × Int → Except DXGrabFault (Option Img)

/-- The fields of `DXCamCapturer`: the base-class state plus the camera
handle, the device/output indices and `self._region_for_dxcam`. -/
structure DXCamCapturerState where
  target_fps : Int
  frame_time : ℚ
  running : Bool
  region : MSSRegion
  camera : Bool
  device_idx : Int
  output_idx : Int
  region_for_dxcam : Option (Int × Int × Int × Int)

namespace MSSCapturer

/-- `MSSCapturer.set_region` (screen_capture.py lines 72-77): rejects
non-positive dimensions, otherwise stores the region in MSS format via
the base class (line 32). -/
def set_region (s : MSSCapturerState) (x y width height : Int) : MSSCapturerState :=
  if width ≤ 0 ∨ height ≤ 0 then s
  else { s with region := ⟨y, x, width, height⟩ }

/-- Lines 92-108 of `MSSCapturer.capture_frame`: the shared region
validity check followed by the guarded `self.sct.grab` call; both
exception kinds produce `None`. -/
def grabStep (s : MSSCapturerState) (grab : MSSGrab) (capture_region : MSSRegion) :
    MSSCapturerState × Option Img :=
  if capture_region.width ≤ 0 ∨ capture_region.height ≤ 0 then (s, none)
  else
    match grab capture_region with
    | .ok raw => (s, some (stripToBGR raw))
    | .error _ => (s, none)

/-- `MSSCapturer.capture_frame` (screen_capture.py lines 80-108).  The
external grab call is the parameter `grab`; the method writes no field
of `self`, so the returned state is the input state. -/
def capture_frame (s : MSSCapturerState) (grab : MSSGrab) (region : Option RegionArg) :
    MSSCapturerState × Option Img :=
  if ¬s.running ∨ ¬s.sct then (s, none)
  else
    match region with
    | some r =>
        if r.w ≤ 0 ∨ r.h ≤ 0 then (s, none)
        else grabStep s grab ⟨r.y, r.x, r.w, r.h⟩
    | none => grabStep s grab s.region

end MSSCapturer

namespace DXCamCapturer

/-- `DXCamCapturer.set_region` (screen_capture.py lines 155-162):
rejects non-positive dimensions, otherwise stores the MSS-format region
via the base class and the `(left, top, right, bottom)` tuple for
dxcam. -/
def set_region (s : DXCamCapturerState) (x y width height : Int) : DXCamCapturerState :=
  if width ≤ 0 ∨ height ≤ 0 then s
  else
    { s with
      region := ⟨y, x, width, height⟩
      region_for_dxcam := some (x, y, x + width, y + height) }

/-- Lines 181-196 of `DXCamCapturer.capture_frame`: the guarded
`self.camera.grab` call; a `None` frame and an exception both produce
`None`. -/
def grabStep (s : DXCamCapturerState) (grab : DXGrab) (dr : Int × Int × Int × Int) :
    DXCamCapturerState × Option Img :=
  match grab dr with
  | .ok (some frame) => (s, some frame)
  | .ok none => (s, none)
  | .error _ => (s, none)

/-- `DXCamCapturer.capture_frame` (screen_capture.py lines 165-196).
The method writes no field of `self`, so the returned state is the
input state. -/
def capture_frame (s : DXCamCapturerState) (grab : DXGrab) (region : Option RegionArg) :
    DXCamCapturerState × Option Img :=
  if ¬s.running ∨ ¬s.camera then (s, none)
  else
    match region with
    | some r =>
        if r.w ≤ 0 ∨ r.h ≤ 0 then (s, none)
        else grabStep s grab (r.x, r.y, r.x + r.w, r.y + r.h)
    | none =>
        match s.region_for_dxcam with
        | none => (s, none)
        | some dr => grabStep s grab dr

end DXCamCapturer

/-- A numpy array alive during a `detectar_monstros` call: the caller's
colour frame, a grayscale image (`frame_gray`), or a score surface
(`res`). -/
inductive Buffer
  | colorBuf : Img → Buffer
  | grayBuf : GrayImage → Buffer
  | scoreBuf : ScoreSurface → Buffer

/-- The inner template loop of lines 164-198 in buffer-allocation
style: `cv2.matchTemplate` writes each score surface to a fresh buffer
appended to the heap; no existing buffer is written. -/
def innerLoopHeap (s : DetectorState) (mt : Matcher) (frame_gray : GrayImage)
    (threshold : ℚ) (nome : String) :
    List (Nat × GrayImage) → List Buffer × List Detection → List Buffer × List Detection
  | [], acc => acc
  | it :: rest, acc =>
      innerLoopHeap s mt frame_gray threshold nome rest
        (if it.2.rows * it.2.cols = 0 then acc
        else if frame_gray.rows < it.2.rows ∨ frame_gray.cols < it.2.cols then acc
        else
          match mt frame_gray it.2 with
          | .error _ => acc
          | .ok res =>
              (acc.1 ++ [Buffer.scoreBuf res],
                acc.2 ++
                  detectionsForTemplate nome (spriteName s nome it.1) res it.2.cols it.2.rows
                    threshold))

/-- The outer monster loop of lines 163-198 in buffer-allocation
style. -/
def templateLoopHeap (s : DetectorState) (mt : Matcher) (frame_gray : GrayImage)
    (threshold : ℚ) :
    TemplateDict → List Buffer × List Detection → List Buffer × List Detection
  | [], acc => acc
  | nt :: rest, acc =>
      templateLoopHeap s mt frame_gray threshold rest
        (innerLoopHeap s mt frame_gray threshold nt.1 nt.2.enum acc)

/-- `detectar_monstros` in buffer-allocation style: the caller's frame
lives at index `frameIdx` of `heap`; `cv2.cvtColor` (line 146, called
with no destination) writes its grayscale output to a fresh buffer, as
does each `cv2.matchTemplate` call.  The returned heap is the final
state of every numpy array the call touched or created. -/
def detectar_monstros_heap (s : DetectorState) (mt : Matcher) (heap : List Buffer)
    (frameIdx : Nat) (threshold : ℚ) (monstros_alvo : Option (List String)) :
    List Buffer × List Detection :=
  match heap[frameIdx]? with
  | some (Buffer.colorBuf frame) =>
      if s.templates.isEmpty then (heap, [])
      else
        let frame_gray := cvtColorBGR2GRAY frame
        let heap1 := heap ++ [Buffer.grayBuf frame_gray]
        let monstros_a_procurar := alvoSelect s.templates monstros_alvo
        if monstros_a_procurar.isEmpty then (heap1, [])
        else
          let out := templateLoopHeap s mt frame_gray threshold monstros_a_procurar (heap1, [])
          (out.1, if out.2.isEmpty then out.2 else out.2.insertionSort confDesc)
  | _ => (heap, [])

/-- A concrete 1 x 1 template used by concrete evaluations. -/
def tmplW : GrayImage := ⟨1, 1, fun _ _ => 0⟩

/-- A concrete 2 x 2 grayscale image used by concrete evaluations. -/
def imgW : GrayImage := ⟨2, 2, fun _ _ => 0⟩

/-- A concrete loaded detector holding one monster with one sprite. -/
def stW : DetectorState :=
  { templates := [("Z", [tmplW])]
    template_filenames := [("Z", ["z.png"])]
    cache_loaded := true }

/-- A concrete matcher returning a 1 x 1 score surface of score 1. -/
def mtW : Matcher := fun _ _ => .ok ⟨1, 1, fun _ _ => 1⟩

/-- A concrete 1 x 1 BGR frame. -/
def frameW : Img := ⟨1, 1, 3, fun _ _ _ => 0⟩

/-- The detection `detectar_monstros stW mtW frameW` produces. -/
def detW : Detection := ⟨"Z", (0, 0, 1, 1), 1, "z.png"⟩

/-- A monster directory none of whose files decodes to a PNG sprite
(one PNG that fails to decode, one non-PNG that decodes). -/
def entEmptyW : FSEntry := ⟨"Empty", true, [("bad.png", none), ("note.txt", some imgW)]⟩

/-- A monster directory with one valid PNG sprite. -/
def entZW : FSEntry := ⟨"Z", true, [("z.png", some imgW)]⟩

/-- A concrete sprites folder with one empty-yield and one valid
monster directory. -/
def fsW : SpritesFS := ⟨true, [entEmptyW, entZW]⟩

/-- The freshly-constructed, not-yet-loaded detector state. -/
def s0W : DetectorState := { templates := [], template_filenames := [], cache_loaded := false }

/-- A concrete running MSS capturer. -/
def msW : MSSCapturerState :=
  { target_fps := 30, frame_time := 0, running := true, region := ⟨0, 0, 100, 100⟩, sct := true }

/-- The same MSS capturer, stopped (transiently unavailable). -/
def msStoppedW : MSSCapturerState := { msW with running := false, sct := false }

/-- A concrete running DXCam capturer. -/
def dsW : DXCamCapturerState :=
  { target_fps := 30, frame_time := 0, running := true, region := ⟨0, 0, 100, 100⟩,
    camera := true, device_idx := 0, output_idx := 0, region_for_dxcam := some (0, 0, 100, 100) }

/-- A concrete raw captured image (BGRA, 4 channels). -/
def imgCapW : Img := ⟨100, 100, 4, fun _ _ _ => 0⟩

theorem mkDetection_injective (nome fn : String) (res : ScoreSurface) (w h : Nat) :
    Function.Injective (mkDetection nome fn res w h) := by
  intro a b hab
  have hx : a.1 = b.1 := congrArg (fun d => d.regiao.1) hab
  have hy : a.2 = b.2 := congrArg (fun d => d.regiao.2.1) hab
  exact Prod.ext_iff.mpr ⟨hx, hy⟩

theorem mem_cellsList (rows cols x y : Nat) :
    (x, y) ∈ cellsList rows cols ↔ x < cols ∧ y < rows := by
  simp only [cellsList, List.mem_flatMap, List.mem_map, List.mem_range, Prod.mk.injEq]
  constructor
  · rintro ⟨y', hy', x', hx', rfl, rfl⟩
    exact ⟨hx', hy'⟩
  · rintro ⟨hx, hy⟩
    exact ⟨y, hy, x, hx, rfl, rfl⟩

theorem cellsList_nodup (rows cols : Nat) : (cellsList rows cols).Nodup := by
  rw [cellsList, List.nodup_flatMap]
  refine ⟨fun y _ => ?_, ?_⟩
  · exact List.Nodup.map (fun a b hab => congrArg Prod.fst hab) (List.nodup_range cols)
  · refine (List.nodup_range rows).imp ?_
    intro a b hne p hp1 hp2
    rw [List.mem_map] at hp1 hp2
    obtain ⟨x1, -, rfl⟩ := hp1
    obtain ⟨x2, -, h2⟩ := hp2
    exact hne ((congrArg Prod.snd h2).symm)

theorem count_detectionsForTemplate (nome fn : String) (res : ScoreSurface) (w h : Nat)
    (threshold : ℚ) (x y : Nat) :
    (detectionsForTemplate nome fn res w h threshold).count
        (mkDetection nome fn res w h (x, y)) =
      if x < res.cols ∧ y < res.rows ∧ threshold ≤ res.score y x then 1 else 0 := by
  have hnd : (detectionsForTemplate nome fn res w h threshold).Nodup :=
    List.Nodup.map (mkDetection_injective nome fn res w h)
      (List.Nodup.filter _ (cellsList_nodup res.rows res.cols))
  have hmem :
      mkDetection nome fn res w h (x, y) ∈ detectionsForTemplate nome fn res w h threshold ↔
        x < res.cols ∧ y < res.rows ∧ threshold ≤ res.score y x := by
    rw [detectionsForTemplate, List.mem_map]
    constructor
    · rintro ⟨c, hc, hceq⟩
      obtain rfl := mkDetection_injective nome fn res w h hceq
      rw [List.mem_filter] at hc
      have h1 := (mem_cellsList res.rows res.cols x y).mp hc.1
      exact ⟨h1.1, h1.2, of_decide_eq_true hc.2⟩
    · rintro ⟨hx, hy, hq⟩
      refine ⟨(x, y), ?_, rfl⟩
      rw [List.mem_filter]
      exact ⟨(mem_cellsList res.rows res.cols x y).mpr ⟨hx, hy⟩, decide_eq_true hq⟩
  by_cases hcond : x < res.cols ∧ y < res.rows ∧ threshold ≤ res.score y x
  · rw [if_pos hcond]
    exact List.count_eq_one_of_mem hnd (hmem.mpr hcond)
  · rw [if_neg hcond]
    exact List.count_eq_zero_of_not_mem (fun hm => hcond (hmem.mp hm))

theorem detections_unsorted_eq_processed (s : DetectorState) (mt : Matcher)
    (frame_gray : GrayImage) (threshold : ℚ) (m : TemplateDict) :
    detections_unsorted s mt frame_gray threshold m =
      (processedTemplates s mt frame_gray m).flatMap
        (fun p => detectionsForTemplate p.nome p.sprite_usado p.res p.w p.h threshold) := by
  rw [detections_unsorted, processedTemplates, List.flatMap_assoc]
  refine List.flatMap_congr (fun nt _ => ?_)
  rw [List.flatMap_assoc]
  refine List.flatMap_congr (fun it _ => ?_)
  by_cases h1 : it.2.rows * it.2.cols = 0
  · simp [h1]
  by_cases h2 : frame_gray.rows < it.2.rows ∨ frame_gray.cols < it.2.cols
  · simp [h1, h2]
  cases hmt : mt frame_gray it.2 <;> simp [h1, h2, hmt]

theorem selectLoop_all_unknown (templates : TemplateDict) :
    ∀ (l : List String) (acc : TemplateDict),
      (∀ n ∈ l, dictGet? templates n = none) → selectLoop templates l acc = acc
  | [], _, _ => rfl
  | nome :: rest, acc, h => by
      rw [selectLoop, h nome (List.mem_cons_self _ _)]
      exact selectLoop_all_unknown templates rest acc
        (fun n hn => h n (List.mem_cons_of_mem _ hn))

theorem alvoSelect_of_templates_nil (monstros_alvo : Option (List String)) :
    alvoSelect [] monstros_alvo = [] := by
  cases monstros_alvo with
  | none => rfl
  | some alvo =>
      by_cases ha : alvo = []
      · simp [alvoSelect, ha]
      · simp only [alvoSelect, if_neg ha]
        exact selectLoop_all_unknown [] alvo [] (fun n _ => rfl)

theorem detectar_monstros_perm_unsorted (s : DetectorState) (mt : Matcher) (frame : Img)
    (threshold : ℚ) (monstros_alvo : Option (List String)) :
    (detectar_monstros s mt frame threshold monstros_alvo).Perm
      (detections_unsorted s mt (cvtColorBGR2GRAY frame) threshold
        (alvoSelect s.templates monstros_alvo)) := by
  by_cases h0 : s.templates.isEmpty
  · have ht := List.isEmpty_iff.mp h0
    simp [detectar_monstros, h0, ht, alvoSelect_of_templates_nil, detections_unsorted]
  · by_cases h1 : (alvoSelect s.templates monstros_alvo).isEmpty
    · have hm := List.isEmpty_iff.mp h1
      simp [detectar_monstros, h0, h1, hm, detections_unsorted]
    · simp only [detectar_monstros, h0, h1, if_false, Bool.false_eq_true]
      by_cases h2 :
          (detections_unsorted s mt (cvtColorBGR2GRAY frame) threshold
            (alvoSelect s.templates monstros_alvo)).isEmpty
      · simp only [h2, if_true]
        exact List.Perm.refl _
      · simp only [h2, if_false, Bool.false_eq_true]
        exact List.perm_insertionSort confDesc _

/-- C1: for every frame, loaded library (detector state), matcher
behaviour and threshold, the detection list is a permutation of the
per-processed-template lists, and each processed template's list holds
exactly one Detection for every score-surface cell at or above the
threshold — with region `(col, row, templateWidth, templateHeight)`,
confidence the cell's score and sprite filename the recorded one — and
none for any cell below it, regardless of sign. -/
theorem detectar_monstros_emits_qualifying_cells (s : DetectorState) (mt : Matcher)
    (frame : Img) (threshold : ℚ) (monstros_alvo : Option (List String)) :
    (detectar_monstros s mt frame threshold monstros_alvo).Perm
      ((processedTemplates s mt (cvtColorBGR2GRAY frame)
          (alvoSelect s.templates monstros_alvo)).flatMap
        (fun p => detectionsForTemplate p.nome p.sprite_usado p.res p.w p.h threshold)) ∧
    ∀ p ∈ processedTemplates s mt (cvtColorBGR2GRAY frame)
        (alvoSelect s.templates monstros_alvo),
      ∀ x y : Nat,
        (detectionsForTemplate p.nome p.sprite_usado p.res p.w p.h threshold).count
            (mkDetection p.nome p.sprite_usado p.res p.w p.h (x, y)) =
          if x < p.res.cols ∧ y < p.res.rows ∧ threshold ≤ p.res.score y x then 1 else 0 := by
  constructor
  · have hperm := detectar_monstros_perm_unsorted s mt frame threshold monstros_alvo
    rwa [detections_unsorted_eq_processed] at hperm
  · intro p _ x y
    exact count_detectionsForTemplate p.nome p.sprite_usado p.res p.w p.h threshold x y

/-- C3: raising the threshold can only shrink the detection set: every
detection returned at threshold `t2` is also returned at any lower
threshold `t1`, for the same frame, state, matcher and targets. -/
theorem detectar_monstros_threshold_monotone (s : DetectorState) (mt : Matcher) (frame : Img)
    (monstros_alvo : Option (List String)) (t1 t2 : ℚ) (h : t1 < t2) :
    ∀ d ∈ detectar_monstros s mt frame t2 monstros_alvo,
      d ∈ detectar_monstros s mt frame t1 monstros_alvo := by
  intro d hd
  rw [(detectar_monstros_perm_unsorted s mt frame t2 monstros_alvo).mem_iff] at hd
  rw [(detectar_monstros_perm_unsorted s mt frame t1 monstros_alvo).mem_iff]
  rw [detections_unsorted_eq_processed] at hd ⊢
  rw [List.mem_flatMap] at hd ⊢
  obtain ⟨p, hp, hdp⟩ := hd
  refine ⟨p, hp, ?_⟩
  rw [detectionsForTemplate, List.mem_map] at hdp ⊢
  obtain ⟨c, hc, rfl⟩ := hdp
  refine ⟨c, ?_, rfl⟩
  rw [List.mem_filter] at hc ⊢
  exact ⟨hc.1, decide_eq_true (le_trans h.le (of_decide_eq_true hc.2))⟩

/-- C3 witness: with the concrete one-sprite detector and constant
matcher, the detection produced at threshold 1 is also produced at
threshold 0. -/
theorem detectar_monstros_threshold_monotone_witness :
    detW ∈ detectar_monstros stW mtW frameW 0 none :=
  detectar_monstros_threshold_monotone stW mtW frameW none 0 1 (by norm_num) detW (by decide)

/-- C5: the list `detectar_monstros` returns is sorted by confidence in
descending order (the stable sort of line 206), for every state,
matcher, frame, threshold and target selection. -/
theorem detectar_monstros_sorted_desc (s : DetectorState) (mt : Matcher) (frame : Img)
    (threshold : ℚ) (monstros_alvo : Option (List String)) :
    List.Sorted confDesc (detectar_monstros s mt frame threshold monstros_alvo) := by
  simp only [detectar_monstros]
  split_ifs with h0 h1 h2
  · exact List.sorted_nil
  · exact List.sorted_nil
  · rw [List.isEmpty_iff.mp h2]
    exact List.sorted_nil
  · exact List.sorted_insertionSort confDesc _

/-- C2 counterexample: with a nonempty loaded library, passing an
explicitly provided EMPTY target list does not return the empty
sequence — Python's `if monstros_alvo:` treats `[]` like `None`, so
the call searches every loaded monster and here finds one. -/
theorem detectar_monstros_empty_target_list_detects :
    detectar_monstros stW mtW frameW 0 (some []) ≠ [] := by decide

/-- C2 amended: when `detectar_monstros` is called with a provided
NONEMPTY target list none of whose names is a key of the loaded
template library, it returns the empty sequence for every frame,
matcher and threshold (each unknown name is only warned about); an
empty provided list is instead treated like `None` and searches all
loaded monsters. -/
theorem detectar_monstros_unknown_targets_empty (s : DetectorState) (mt : Matcher)
    (frame : Img) (threshold : ℚ) (alvo : List String) (hne : alvo ≠ [])
    (hunk : ∀ n ∈ alvo, dictGet? s.templates n = none) :
    detectar_monstros s mt frame threshold (some alvo) = [] := by
  have hm : alvoSelect s.templates (some alvo) = [] := by
    simp only [alvoSelect, if_neg hne]
    exact selectLoop_all_unknown s.templates alvo [] hunk
  by_cases h0 : s.templates.isEmpty
  · simp [detectar_monstros, h0]
  · simp [detectar_monstros, h0, hm]

/-- C2 witness: the concrete detector knows only "Z", so targeting the
unknown name "Q" yields the empty sequence. -/
theorem detectar_monstros_unknown_targets_empty_witness :
    detectar_monstros stW mtW frameW 0 (some ["Q"]) = [] :=
  detectar_monstros_unknown_targets_empty stW mtW frameW 0 ["Q"] (by decide)
    (by
      intro n hn
      rw [List.mem_singleton] at hn
      subst hn
      rfl)

theorem dictAppend_values_ne_nil {α : Type} (k : String) (v : α) :
    ∀ d : List (String × List α), (∀ p ∈ d, p.2 ≠ []) → ∀ p ∈ dictAppend k v d, p.2 ≠ []
  | [], _, p, hp => by
      rw [dictAppend, List.mem_singleton] at hp
      subst hp
      simp
  | (k', vs) :: rest, h, p, hp => by
      rw [dictAppend] at hp
      by_cases hk : k' = k
      · rw [if_pos hk] at hp
        rcases List.mem_cons.mp hp with rfl | hmem
        · simp
        · exact h p (List.mem_cons_of_mem _ hmem)
      · rw [if_neg hk] at hp
        rcases List.mem_cons.mp hp with rfl | hmem
        · exact h _ (List.mem_cons_self _ _)
        · exact dictAppend_values_ne_nil k v rest
            (fun q hq => h q (List.mem_cons_of_mem _ hq)) p hmem

theorem dictGet?_cons {α : Type} (k' : String) (v : α) (rest : List (String × α)) (n : String) :
    dictGet? ((k', v) :: rest) n = if k' = n then some v else dictGet? rest n := by
  by_cases h : k' = n
  · rw [if_pos h, dictGet?, List.find?_cons_of_pos _ (by simpa using h)]
    rfl
  · rw [if_neg h, dictGet?, List.find?_cons_of_neg _ (by simpa using h)]
    rfl

theorem dictGet?_dictAppend_ne {α : Type} (k n : String) (hne : k ≠ n) (v : α) :
    ∀ d : List (String × List α), dictGet? (dictAppend k v d) n = dictGet? d n
  | [] => by
      rw [dictAppend, dictGet?_cons, if_neg hne]
  | (k', vs) :: rest => by
      rw [dictAppend]
      by_cases hk : k' = k
      · have hk'n : k' ≠ n := by rw [hk]; exact hne
        rw [if_pos hk, dictGet?_cons, dictGet?_cons, if_neg hk'n, if_neg hk'n]
      · rw [if_neg hk, dictGet?_cons, dictGet?_cons,
          dictGet?_dictAppend_ne k n hne v rest]

theorem loadFiles_templates_ne_nil (nome : String) :
    ∀ (files : List (String × Option GrayImage)) (acc : TemplateDict × FilenameDict),
      (∀ p ∈ acc.1, p.2 ≠ []) → ∀ p ∈ (loadFiles nome files acc).1, p.2 ≠ []
  | [], _, h => h
  | f :: rest, acc, h => by
      rw [loadFiles]
      by_cases hp : isPngName f.1
      · rw [if_pos hp]
        cases hf : f.2 with
        | none => exact loadFiles_templates_ne_nil nome rest acc h
        | some img =>
            exact loadFiles_templates_ne_nil nome rest _
              (dictAppend_values_ne_nil nome img acc.1 h)
      · rw [if_neg hp]
        exact loadFiles_templates_ne_nil nome rest acc h

theorem loadFiles_templates_lookup_ne (nome n : String) (hne : nome ≠ n) :
    ∀ (files : List (String × Option GrayImage)) (acc : TemplateDict × FilenameDict),
      dictGet? (loadFiles nome files acc).1 n = dictGet? acc.1 n
  | [], _ => rfl
  | f :: rest, acc => by
      rw [loadFiles]
      by_cases hp : isPngName f.1
      · rw [if_pos hp]
        cases hf : f.2 with
        | none => exact loadFiles_templates_lookup_ne nome n hne rest acc
        | some img =>
            rw [loadFiles_templates_lookup_ne nome n hne rest _]
            exact dictGet?_dictAppend_ne nome n hne img acc.1
      · rw [if_neg hp]
        exact loadFiles_templates_lookup_ne nome n hne rest acc

theorem loadFiles_of_decoded_nil (nome : String) :
    ∀ (files : List (String × Option GrayImage)) (acc : TemplateDict × FilenameDict),
      decodedPngs files = [] → loadFiles nome files acc = acc
  | [], _, _ => rfl
  | f :: rest, acc, h => by
      rw [decodedPngs, List.filterMap_cons] at h
      cases hfa : (if isPngName f.1 then f.2 else none) with
      | some img =>
          rw [hfa] at h
          exact absurd h (List.cons_ne_nil _ _)
      | none =>
          rw [hfa] at h
          rw [loadFiles]
          by_cases hp : isPngName f.1
          · rw [if_pos hp] at hfa ⊢
            rw [hfa]
            exact loadFiles_of_decoded_nil nome rest acc h
          · rw [if_neg hp]
            exact loadFiles_of_decoded_nil nome rest acc h

theorem loadEntries_templates_ne_nil :
    ∀ (entries : List FSEntry) (acc : TemplateDict × FilenameDict),
      (∀ p ∈ acc.1, p.2 ≠ []) → ∀ p ∈ (loadEntries entries acc).1, p.2 ≠ []
  | [], _, h => h
  | e :: rest, acc, h => by
      rw [loadEntries]
      by_cases hd : e.isDir
      · rw [if_pos hd]
        exact loadEntries_templates_ne_nil rest _
          (loadFiles_templates_ne_nil e.name e.files acc h)
      · rw [if_neg hd]
        exact loadEntries_templates_ne_nil rest acc h

theorem loadEntries_lookup_none (n : String) :
    ∀ (entries : List FSEntry) (acc : TemplateDict × FilenameDict),
      (∀ e ∈ entries, e.name = n → e.isDir = true → decodedPngs e.files = []) →
      dictGet? acc.1 n = none → dictGet? (loadEntries entries acc).1 n = none
  | [], _, _, hacc => hacc
  | e :: rest, acc, h, hacc => by
      rw [loadEntries]
      by_cases hd : e.isDir
      · rw [if_pos hd]
        by_cases hname : e.name = n
        · rw [loadFiles_of_decoded_nil e.name e.files acc
            (h e (List.mem_cons_self _ _) hname hd)]
          exact loadEntries_lookup_none n rest acc
            (fun e' he' => h e' (List.mem_cons_of_mem _ he')) hacc
        · refine loadEntries_lookup_none n rest _
            (fun e' he' => h e' (List.mem_cons_of_mem _ he')) ?_
          rw [loadFiles_templates_lookup_ne e.name n hname e.files acc]
          exact hacc
      · rw [if_neg hd]
        exact loadEntries_lookup_none n rest acc
          (fun e' he' => h e' (List.mem_cons_of_mem _ he')) hacc

/-- C4: a completed `carregar_templates` call never leaves an entity
key mapped to an empty template list (the invariant is preserved by
every branch, cache hit included, and a fresh load establishes it from
scratch); moreover, in a fresh load from an existing root, an entity
name all of whose directory entries yield zero decodable PNG images is
absent from the templates mapping entirely. -/
theorem carregar_templates_entries_nonempty (fs : SpritesFS) (s : DetectorState)
    (forcar_recarregar : Bool) (hinv : ∀ p ∈ s.templates, p.2 ≠ []) :
    (∀ p ∈ (carregar_templates fs s forcar_recarregar).templates, p.2 ≠ []) ∧
    ((s.cache_loaded = false ∨ forcar_recarregar = true) → fs.rootIsDir = true →
      ∀ n : String,
        (∀ e ∈ fs.entries, e.name = n → e.isDir = true → decodedPngs e.files = []) →
        dictGet? (carregar_templates fs s forcar_recarregar).templates n = none) := by
  constructor
  · unfold carregar_templates
    split_ifs with h1 h2
    · exact hinv
    · exact loadEntries_templates_ne_nil fs.entries ([], [])
        (fun p hp => absurd hp (List.not_mem_nil p))
    · intro p hp
      exact absurd hp (List.not_mem_nil p)
  · intro hcache hroot n hdirs
    unfold carregar_templates
    rw [if_neg ?hc, if_neg (by simp [hroot])]
    case hc =>
      rintro ⟨hl, hforcar⟩
      rcases hcache with hfalse | htrue
      · rw [hfalse] at hl
        exact absurd hl (by simp)
      · rw [htrue] at hforcar
        exact hforcar rfl
    exact loadEntries_lookup_none n fs.entries ([], []) hdirs rfl

/-- C4 witness: loading the concrete sprites folder whose "Empty"
directory yields no decodable PNG leaves "Empty" absent from the
templates mapping. -/
theorem carregar_templates_entries_nonempty_witness :
    dictGet? (carregar_templates fsW s0W true).templates "Empty" = none :=
  (carregar_templates_entries_nonempty fsW s0W true
      (fun p hp => absurd hp (List.not_mem_nil p))).2
    (Or.inr rfl) rfl "Empty"
    (by
      intro e he hname hd
      rcases List.mem_cons.mp he with rfl | he2
      · rfl
      · rcases List.mem_cons.mp he2 with rfl | he3
        · exact absurd hname (by decide)
        · exact absurd he3 (List.not_mem_nil e))

/-- C8: when the cache is marked loaded and no reload is forced,
`carregar_templates` is a no-op: the whole detector state — templates
and filename mappings included — is returned unchanged. -/
theorem carregar_templates_cache_hit (fs : SpritesFS) (s : DetectorState)
    (h : s.cache_loaded = true) : carregar_templates fs s false = s := by
  simp [carregar_templates, h]

/-- C8 witness: the concrete already-loaded detector is returned
unchanged by a non-forced reload. -/
theorem carregar_templates_cache_hit_witness : carregar_templates fsW stW false = stW :=
  carregar_templates_cache_hit fsW stW rfl

/-- C6: for both backends, `set_region` with a non-positive width or
height leaves the whole backend state (the stored region included)
unchanged, while a call with positive dimensions immediately replaces
the stored region (and, for DXCam, the derived
`(left, top, right, bottom)` tuple) with the new values. -/
theorem set_region_validates_dimensions (ms : MSSCapturerState) (ds : DXCamCapturerState)
    (x y w h : Int) :
    ((w ≤ 0 ∨ h ≤ 0) →
      MSSCapturer.set_region ms x y w h = ms ∧ DXCamCapturer.set_region ds x y w h = ds) ∧
    (0 < w → 0 < h →
      MSSCapturer.set_region ms x y w h = { ms with region := ⟨y, x, w, h⟩ } ∧
      DXCamCapturer.set_region ds x y w h =
        { ds with
          region := ⟨y, x, w, h⟩
          region_for_dxcam := some (x, y, x + w, y + h) }) := by
  constructor
  · intro hbad
    constructor
    · rw [MSSCapturer.set_region, if_pos hbad]
    · rw [DXCamCapturer.set_region, if_pos hbad]
  · intro hw hh
    have hok : ¬(w ≤ 0 ∨ h ≤ 0) := by omega
    constructor
    · rw [MSSCapturer.set_region, if_neg hok]
    · rw [DXCamCapturer.set_region, if_neg hok]

/-- C6 witness: the concrete MSS backend ignores a width of -1 and the
concrete DXCam backend stores the region of a valid call. -/
theorem set_region_validates_dimensions_witness :
    MSSCapturer.set_region msW 1 2 (-1) 5 = msW ∧
    DXCamCapturer.set_region dsW 1 2 3 4 =
      { dsW with region := ⟨2, 1, 3, 4⟩, region_for_dxcam := some (1, 2, 1 + 3, 2 + 4) } :=
  ⟨((set_region_validates_dimensions msW dsW 1 2 (-1) 5).1 (Or.inl (by decide))).1,
    ((set_region_validates_dimensions msW dsW 1 2 3 4).2 (by decide) (by decide)).2⟩

/-- C7 counterexample: a fatal backend fault (every grab call raising a
non-ScreenShotError exception on a running, region-configured MSS
backend) produces exactly the same outcome — `none` — as the transient
"unavailable" result of a stopped backend, so the two are not
distinguishable by the caller. -/
theorem capture_frame_fatal_equals_transient :
    (MSSCapturer.capture_frame msW (fun _ => .error .deviceFault) none).2 = none ∧
    (MSSCapturer.capture_frame msStoppedW (fun _ => .ok imgCapW) none).2 = none := by
  constructor <;> rfl

/-- C7 amended: `capture_frame` does NOT surface fatal backend faults
distinguishably: for both backends, a grab call that raises a fatal
device fault yields the very same `none` result that the transient
"unavailable" cases (backend not running / handle absent) yield. -/
theorem capture_frame_failures_collapse (s : MSSCapturerState) (g : MSSGrab)
    (ds : DXCamCapturerState) (dg : DXGrab) (r : Option RegionArg) :
    ((¬s.running ∨ ¬s.sct) → (MSSCapturer.capture_frame s g r).2 = none) ∧
    ((∀ cr, g cr = .error .deviceFault) → (MSSCapturer.capture_frame s g r).2 = none) ∧
    ((¬ds.running ∨ ¬ds.camera) → (DXCamCapturer.capture_frame ds dg r).2 = none) ∧
    ((∀ q, dg q = .error .deviceFault) → (DXCamCapturer.capture_frame ds dg r).2 = none) := by
  refine ⟨?_, ?_, ?_, ?_⟩
  · intro hoff
    unfold MSSCapturer.capture_frame
    rw [if_pos hoff]
  · intro hg
    unfold MSSCapturer.capture_frame
    split_ifs with h1
    · rfl
    · cases r with
      | none => simp [MSSCapturer.grabStep, hg]
      | some rr => simp [MSSCapturer.grabStep, hg]
  · intro hoff
    unfold DXCamCapturer.capture_frame
    rw [if_pos hoff]
  · intro hg
    unfold DXCamCapturer.capture_frame
    split_ifs with h1
    · rfl
    · cases r with
      | none =>
          cases hreg : ds.region_for_dxcam with
          | none => simp
          | some dr => simp [DXCamCapturer.grabStep, hg]
      | some rr => simp [DXCamCapturer.grabStep, hg]

theorem mss_grabStep_fst (s : MSSCapturerState) (g : MSSGrab) (cr : MSSRegion) :
    (MSSCapturer.grabStep s g cr).1 = s := by
  unfold MSSCapturer.grabStep
  split_ifs with h
  · rfl
  · cases hg : g cr <;> rfl

theorem dx_grabStep_fst (s : DXCamCapturerState) (g : DXGrab) (dr : Int × Int × Int × Int) :
    (DXCamCapturer.grabStep s g dr).1 = s := by
  unfold DXCamCapturer.grabStep
  cases hg : g dr with
  | error e => rfl
  | ok f => cases f <;> rfl

theorem mss_capture_frame_fst (s : MSSCapturerState) (g : MSSGrab) (region : Option RegionArg) :
    (MSSCapturer.capture_frame s g region).1 = s := by
  unfold MSSCapturer.capture_frame
  split_ifs with h1
  · rfl
  · cases region with
    | none => exact mss_grabStep_fst s g s.region
    | some r =>
        show (if r.w ≤ 0 ∨ r.h ≤ 0 then (s, (none : Option Img))
          else MSSCapturer.grabStep s g ⟨r.y, r.x, r.w, r.h⟩).1 = s
        split_ifs with h2
        · rfl
        · exact mss_grabStep_fst s g ⟨r.y, r.x, r.w, r.h⟩

theorem dx_capture_frame_fst (s : DXCamCapturerState) (g : DXGrab) (region : Option RegionArg) :
    (DXCamCapturer.capture_frame s g region).1 = s := by
  unfold DXCamCapturer.capture_frame
  split_ifs with h1
  · rfl
  · cases region with
    | none =>
        cases hreg : s.region_for_dxcam with
        | none => rfl
        | some dr => exact dx_grabStep_fst s g dr
    | some r =>
        show (if r.w ≤ 0 ∨ r.h ≤ 0 then (s, (none : Option Img))
          else DXCamCapturer.grabStep s g (r.x, r.y, r.x + r.w, r.y + r.h)).1 = s
        split_ifs with h2
        · rfl
        · exact dx_grabStep_fst s g (r.x, r.y, r.x + r.w, r.y + r.h)

/-- C9: for both backends, `capture_frame` with an explicit region
override leaves the backend state — the stored region included —
untouched, captures (runs the grab) on exactly the override-derived
region when the backend is running and the override is valid, and a
subsequent no-argument `capture_frame` behaves exactly as it would
have before the overridden call. -/
theorem capture_frame_override_ephemeral (s : MSSCapturerState) (g : MSSGrab)
    (ds : DXCamCapturerState) (dg : DXGrab) (r : RegionArg) :
    (MSSCapturer.capture_frame s g (some r)).1 = s ∧
    (DXCamCapturer.capture_frame ds dg (some r)).1 = ds ∧
    (s.running = true → s.sct = true → 0 < r.w → 0 < r.h →
      (MSSCapturer.capture_frame s g (some r)).2 =
        (MSSCapturer.grabStep s g ⟨r.y, r.x, r.w, r.h⟩).2) ∧
    (ds.running = true → ds.camera = true → 0 < r.w → 0 < r.h →
      (DXCamCapturer.capture_frame ds dg (some r)).2 =
        (DXCamCapturer.grabStep ds dg (r.x, r.y, r.x + r.w, r.y + r.h)).2) ∧
    MSSCapturer.capture_frame (MSSCapturer.capture_frame s g (some r)).1 g none =
      MSSCapturer.capture_frame s g none ∧
    DXCamCapturer.capture_frame (DXCamCapturer.capture_frame ds dg (some r)).1 dg none =
      DXCamCapturer.capture_frame ds dg none := by
  refine ⟨mss_capture_frame_fst s g (some r), dx_capture_frame_fst ds dg (some r),
    ?_, ?_, ?_, ?_⟩
  · intro hrun hsct hw hh
    unfold MSSCapturer.capture_frame
    rw [if_neg (by simp [hrun, hsct])]
    show (if r.w ≤ 0 ∨ r.h ≤ 0 then (s, (none : Option Img))
      else MSSCapturer.grabStep s g ⟨r.y, r.x, r.w, r.h⟩).2 =
        (MSSCapturer.grabStep s g ⟨r.y, r.x, r.w, r.h⟩).2
    rw [if_neg (by omega)]
  · intro hrun hcam hw hh
    unfold DXCamCapturer.capture_frame
    rw [if_neg (by simp [hrun, hcam])]
    show (if r.w ≤ 0 ∨ r.h ≤ 0 then (ds, (none : Option Img))
      else DXCamCapturer.grabStep ds dg (r.x, r.y, r.x + r.w, r.y + r.h)).2 =
        (DXCamCapturer.grabStep ds dg (r.x, r.y, r.x + r.w, r.y + r.h)).2
    rw [if_neg (by omega)]
  · rw [mss_capture_frame_fst s g (some r)]
  · rw [dx_capture_frame_fst ds dg (some r)]

theorem innerLoopHeap_extends (s : DetectorState) (mt : Matcher) (frame_gray : GrayImage)
    (threshold : ℚ) (nome : String) (l : List (Nat × GrayImage)) :
    ∀ acc : List Buffer × List Detection,
      ∃ ext, (innerLoopHeap s mt frame_gray threshold nome l acc).1 = acc.1 ++ ext := by
  induction l with
  | nil => exact fun acc => ⟨[], (List.append_nil _).symm⟩
  | cons it rest ih =>
      intro acc
      rw [innerLoopHeap]
      split_ifs with h1 h2
      · exact ih acc
      · exact ih acc
      · cases hmt : mt frame_gray it.2 with
        | error e => exact ih acc
        | ok res =>
            obtain ⟨ext, hext⟩ := ih
              (acc.1 ++ [Buffer.scoreBuf res],
                acc.2 ++
                  detectionsForTemplate nome (spriteName s nome it.1) res it.2.cols it.2.rows
                    threshold)
            exact ⟨Buffer.scoreBuf res :: ext, by rw [hext, List.append_assoc]; rfl⟩

theorem templateLoopHeap_extends (s : DetectorState) (mt : Matcher) (frame_gray : GrayImage)
    (threshold : ℚ) (m : TemplateDict) :
    ∀ acc : List Buffer × List Detection,
      ∃ ext, (templateLoopHeap s mt frame_gray threshold m acc).1 = acc.1 ++ ext := by
  induction m with
  | nil => exact fun acc => ⟨[], (List.append_nil _).symm⟩
  | cons nt rest ih =>
      intro acc
      rw [templateLoopHeap]
      obtain ⟨e1, he1⟩ :=
        innerLoopHeap_extends s mt frame_gray threshold nt.1 nt.2.enum acc
      obtain ⟨e2, he2⟩ := ih (innerLoopHeap s mt frame_gray threshold nt.1 nt.2.enum acc)
      exact ⟨e1 ++ e2, by rw [he2, he1, List.append_assoc]⟩

theorem detectar_monstros_heap_extends (s : DetectorState) (mt : Matcher)
    (heap : List Buffer) (frameIdx : Nat) (threshold : ℚ)
    (monstros_alvo : Option (List String)) :
    ∃ ext, (detectar_monstros_heap s mt heap frameIdx threshold monstros_alvo).1 =
      heap ++ ext := by
  cases hidx : heap[frameIdx]? with
  | none =>
      simp only [detectar_monstros_heap, hidx]
      exact ⟨[], (List.append_nil _).symm⟩
  | some b =>
      cases b with
      | colorBuf frame =>
          simp only [detectar_monstros_heap, hidx]
          split_ifs with h0 h1 h2
          · exact ⟨[], (List.append_nil _).symm⟩
          · exact ⟨[Buffer.grayBuf (cvtColorBGR2GRAY frame)], rfl⟩
          all_goals
            obtain ⟨ext, hext⟩ :=
              templateLoopHeap_extends s mt (cvtColorBGR2GRAY frame) threshold
                (alvoSelect s.templates monstros_alvo)
                (heap ++ [Buffer.grayBuf (cvtColorBGR2GRAY frame)], [])
            exact ⟨Buffer.grayBuf (cvtColorBGR2GRAY frame) :: ext, by
              rw [hext, List.append_assoc]; rfl⟩
      | grayBuf gi =>
          simp only [detectar_monstros_heap, hidx]
          exact ⟨[], (List.append_nil _).symm⟩
      | scoreBuf ss =>
          simp only [detectar_monstros_heap, hidx]
          exact ⟨[], (List.append_nil _).symm⟩

/-- C10: `detectar_monstros` never writes to the caller's frame, nor to
any buffer that existed before the call: in the buffer-allocation model
the heap after the call extends the heap before it, so every
pre-existing buffer — the frame at `frameIdx` included — is unchanged;
this holds for every threshold and target selection. -/
theorem detectar_monstros_heap_frame_unchanged (s : DetectorState) (mt : Matcher)
    (heap : List Buffer) (frameIdx : Nat) (threshold : ℚ)
    (monstros_alvo : Option (List String)) :
    ((detectar_monstros_heap s mt heap frameIdx threshold monstros_alvo).1).take
        heap.length = heap ∧
    ((detectar_monstros_heap s mt heap frameIdx threshold monstros_alvo).1)[frameIdx]? =
      heap[frameIdx]? := by
  obtain ⟨ext, hext⟩ :=
    detectar_monstros_heap_extends s mt heap frameIdx threshold monstros_alvo
  constructor
  · rw [hext]
    exact List.take_left heap ext
  · cases hidx : heap[frameIdx]? with
    | none =>
        have hdef :
            (detectar_monstros_heap s mt heap frameIdx threshold monstros_alvo).1 = heap := by
          simp only [detectar_monstros_heap, hidx]
        rw [hdef, hidx]
    | some b =>
        have hlt : frameIdx < heap.length := by
          by_contra hge
          rw [List.getElem?_eq_none (le_of_not_lt hge)] at hidx
          exact Option.noConfusion hidx
        rw [hext, List.getElem?_append, if_pos hlt]
        exact hidx
